import Mathlib

/-!
Verification of the trader repository's skill logic: a shallow embedding of
the staking-KPI arithmetic, the round `end_block` overrides, the ABCI
transition tables, the subscription purchase flow and the subgraph query
encoding, together with theorems settling the specification's claims.
-/

/-- States of the staking contract (the `StakingState` enum imported from
`packages.valory.contracts.service_staking_token.contract`).
Modelled from the spec: the contract package is outside the reviewed
sources; only the three states (`UNSTAKED = 0`, `STAKED = 1`, `EVICTED = 2`)
and their identities are used by the skills. -/
inductive StakingState
  | UNSTAKED
  | STAKED
  | EVICTED
  deriving DecidableEq, Repr

/-- `LIVENESS_RATIO_SCALE_FACTOR = 10**18` from
`check_stop_trading_abci/behaviours.py`: the liveness ratio from the staking
contract is expressed in calls per `10**18` seconds. -/
def LIVENESS_RATIO_SCALE_FACTOR : ℤ := 10 ^ 18

/-- `REQUIRED_MECH_REQUESTS_SAFETY_MARGIN = 1` from
`check_stop_trading_abci/behaviours.py`. -/
def REQUIRED_MECH_REQUESTS_SAFETY_MARGIN : ℤ := 1

/-- Computable ceiling of a rational number, used to embed Python's
`math.ceil`. -/
def qceil (q : ℚ) : ℤ := -(-q.num / (q.den : ℤ))

/-- The exact rational value of the IEEE-754 binary64 nearest to the
positive rational `q`, with round to nearest and ties to even: take the
binade exponent `e = ⌊log2 q⌋`, scale the significand into `[2^52, 2^53)`,
and round it to an integer (ties to the even integer).  This is the value of
a correctly rounded floating-point operation whose exact result is `q`,
faithful on the whole normal range `2^(-1022) ≤ q < 2^1024`. -/
def floatRoundPos (q : ℚ) : ℚ :=
  let e : ℤ := Int.log 2 q
  let scaled : ℚ := q * 2 ^ ((52 : ℤ) - e)
  let f : ℤ := ⌊scaled⌋
  let r : ℚ := scaled - (f : ℚ)
  let m : ℤ :=
    if 1 / 2 < r then f + 1
    else if r < 1 / 2 then f
    else if f % 2 = 0 then f else f + 1
  (m : ℚ) * 2 ^ (e - (52 : ℤ))

/-- Rounding of a rational to binary64 (round to nearest, ties to even),
extended to zero and negative values by sign symmetry. -/
def floatRound (q : ℚ) : ℚ :=
  if q = 0 then 0
  else if 0 < q then floatRoundPos q
  else -floatRoundPos (-q)

/-- Python's true division of two ints (`n / d`), which produces the
correctly rounded IEEE-754 binary64 value of the exact quotient, expressed
as the exact rational that float denotes.  With the divisor `10^18` used by
the staking-KPI computation, a nonzero quotient has magnitude at least
`10^-18`, so subnormals never arise; for quotients at or beyond `2^1024`
CPython raises `OverflowError` instead of returning a float, which is
outside this model and excluded by the theorem's hypotheses. -/
def float_div (n d : ℤ) : ℚ := floatRound ((n : ℚ) / (d : ℚ))

/-- `CheckStopTradingBehaviour.is_staking_kpi_met` from
`check_stop_trading_abci/behaviours.py`, lines 86-127.  The six externally
fetched quantities are parameters; Python's int/int true division (`/`)
yields a correctly rounded binary64 float, modelled by `float_div`, and
`math.ceil` of that float is exact, modelled by `qceil` of the rational the
float denotes. -/
def is_staking_kpi_met (service_staking_state : StakingState)
    (mech_request_count mech_request_count_on_last_checkpoint : ℤ)
    (last_ts_checkpoint liveness_period liveness_ratio : ℤ)
    (current_timestamp : ℤ) : Bool :=
  if service_staking_state ≠ StakingState.STAKED then false
  else
    let mech_requests_since_last_cp :=
      mech_request_count - mech_request_count_on_last_checkpoint
    let required_mech_requests :=
      qceil (max
        (float_div ((current_timestamp - last_ts_checkpoint) * liveness_ratio)
          LIVENESS_RATIO_SCALE_FACTOR)
        (float_div (liveness_period * liveness_ratio)
          LIVENESS_RATIO_SCALE_FACTOR)) +
      REQUIRED_MECH_REQUESTS_SAFETY_MARGIN
    decide (mech_requests_since_last_cp ≥ required_mech_requests)

/-- `CheckStopTradingBehaviour.is_first_period` from
`check_stop_trading_abci/behaviours.py`, lines 76-79. -/
def is_first_period (period_count : ℕ) : Bool :=
  period_count == 0

/-- The `stop_trading` flag computed by `CheckStopTradingBehaviour.async_act`
(`check_stop_trading_abci/behaviours.py`, lines 129-161) and sent in the
`CheckStopTradingPayload`.  The fetched KPI result (`is_staking_kpi_met`) is
a parameter; it is only consulted on the branch that evaluates it. -/
def check_stop_trading_flag (period_count : ℕ)
    (disable_trading stop_trading_if_staking_kpi_met staking_kpi_met : Bool) :
    Bool :=
  if is_first_period period_count then false
  else
    let stop_trading_conditions :=
      disable_trading ::
        (if stop_trading_if_staking_kpi_met then [staking_kpi_met] else [])
    stop_trading_conditions.any id

namespace Staking

/-- The `Event` enumeration of `staking_abci/rounds.py`. -/
inductive Event
  | DONE
  | ROUND_TIMEOUT
  | NO_MAJORITY
  | SERVICE_NOT_STAKED
  | SERVICE_EVICTED
  | NEXT_CHECKPOINT_NOT_REACHED_YET
  deriving DecidableEq, Fintype, Repr

/-- The content (non-sender fields) of a `CallCheckpointPayload`: the three
selection keys `tx_submitter`, `most_voted_tx_hash` and
`service_staking_state` that `CallCheckpointRound` merges into the
synchronized data. -/
structure CheckpointContent where
  tx_submitter : String
  tx_hash : Option String
  service_staking_state : StakingState
  deriving DecidableEq, Repr

/-- The fields of `staking_abci.rounds.SynchronizedData` read or written by
`CallCheckpointRound`. -/
structure SynchronizedData where
  tx_submitter : String
  most_voted_tx_hash : Option String
  service_staking_state : StakingState
  participant_to_checkpoint : List (String × CheckpointContent)
  deriving DecidableEq, Repr

/-- The mutable state of one `CallCheckpointRound` instance: the payloads
collected so far (at most one per sender), the round's view of the
synchronized data, and the quorum parameters. -/
structure CallCheckpointRoundState where
  collection : List (String × CheckpointContent)
  synchronized_data : SynchronizedData
  threshold : ℕ
  max_participants : ℕ
  deriving Repr

/-- Number of collected payloads whose content equals `v`. -/
def countVotes (col : List (String × CheckpointContent))
    (v : CheckpointContent) : ℕ :=
  (col.filter (fun p => p.2 == v)).length

/-- The content of the first collected payload whose vote count has reached
the threshold, if any. -/
def mostVotedPayload (r : CallCheckpointRoundState) : Option CheckpointContent :=
  (r.collection.find? (fun p => r.threshold ≤ countVotes r.collection p.2)).map
    (·.2)

/-- Whether some content group can still reach the threshold given the
participants that have not voted yet. -/
def isMajorityPossible (r : CallCheckpointRoundState) : Bool :=
  let largest :=
    (r.collection.map (fun p => countVotes r.collection p.2)).foldr max 0
  decide (r.threshold ≤ largest + (r.max_participants - r.collection.length))

/-- Merge a winning payload content into the synchronized data: the three
selection keys are written, and the whole collection is stored under the
collection key `participant_to_checkpoint`. -/
def mergeCheckpoint (d : SynchronizedData)
    (col : List (String × CheckpointContent)) (v : CheckpointContent) :
    SynchronizedData :=
  { tx_submitter := v.tx_submitter
    most_voted_tx_hash := v.tx_hash
    service_staking_state := v.service_staking_state
    participant_to_checkpoint := col }

/-- Modelled from the spec: `CollectSameUntilThresholdRound.end_block` of the
`abstract_round_abci` base package, which is not among the reviewed sources
(spec section 4.1): group the collected payloads by structural equality; if
some group has reached the threshold, merge its value into the synchronized
data and emit `done_event`; if no group can reach the threshold any more,
emit `no_majority_event`; otherwise produce nothing.  The round state is
returned alongside the result to make explicit that `end_block` only reads
the collection and never mutates it. -/
def collectSameUntilThresholdEndBlock (r : CallCheckpointRoundState) :
    CallCheckpointRoundState × Option (SynchronizedData × Event) :=
  match mostVotedPayload r with
  | some v =>
      (r, some (mergeCheckpoint r.synchronized_data r.collection v, Event.DONE))
  | none =>
      if ¬ isMajorityPossible r then
        (r, some (r.synchronized_data, Event.NO_MAJORITY))
      else (r, none)

/-- The post-processing applied by the `CallCheckpointRound.end_block`
override (`staking_abci/rounds.py`, lines 97-117) to the result of
`super().end_block()`. -/
def callCheckpointEndBlockPost (res : Option (SynchronizedData × Event)) :
    Option (SynchronizedData × Event) :=
  match res with
  | none => none
  | some (synced_data, event) =>
    if event ≠ Event.DONE then some (synced_data, event)
    else if synced_data.service_staking_state = StakingState.UNSTAKED then
      some (synced_data, Event.SERVICE_NOT_STAKED)
    else if synced_data.service_staking_state = StakingState.EVICTED then
      some (synced_data, Event.SERVICE_EVICTED)
    else if synced_data.most_voted_tx_hash = none then
      some (synced_data, Event.NEXT_CHECKPOINT_NOT_REACHED_YET)
    else some (synced_data, event)

/-- `CallCheckpointRound.end_block`: the generic quorum computation followed
by the overriding post-processing. -/
def callCheckpointEndBlock (r : CallCheckpointRoundState) :
    CallCheckpointRoundState × Option (SynchronizedData × Event) :=
  let res := collectSameUntilThresholdEndBlock r
  (res.1, callCheckpointEndBlockPost res.2)

/-- The event remapping performed by the `CallCheckpointRound.end_block`
override, as a pure function of the merged synchronized data and the generic
event. -/
def checkpointRemap (d : SynchronizedData) (e : Event) : Event :=
  if e ≠ Event.DONE then e
  else if d.service_staking_state = StakingState.UNSTAKED then
    Event.SERVICE_NOT_STAKED
  else if d.service_staking_state = StakingState.EVICTED then
    Event.SERVICE_EVICTED
  else if d.most_voted_tx_hash = none then
    Event.NEXT_CHECKPOINT_NOT_REACHED_YET
  else Event.DONE

/-- The round classes of `staking_abci/rounds.py`. -/
inductive Round
  | CallCheckpointRound
  | CheckpointCallPreparedRound
  | FinishedStakingRound
  | ServiceEvictedRound
  deriving DecidableEq, Fintype, Repr

/-- `StakingAbciApp.transition_function` (`staking_abci/rounds.py`,
lines 161-173); absent keys of the per-round dictionaries are `none`. -/
def transition_function : Round → Event → Option Round
  | .CallCheckpointRound, .DONE => some .CheckpointCallPreparedRound
  | .CallCheckpointRound, .SERVICE_NOT_STAKED => some .FinishedStakingRound
  | .CallCheckpointRound, .SERVICE_EVICTED => some .ServiceEvictedRound
  | .CallCheckpointRound, .NEXT_CHECKPOINT_NOT_REACHED_YET =>
      some .FinishedStakingRound
  | .CallCheckpointRound, .ROUND_TIMEOUT => some .CallCheckpointRound
  | .CallCheckpointRound, .NO_MAJORITY => some .CallCheckpointRound
  | _, _ => none

/-- `StakingAbciApp.initial_round_cls`. -/
def initial_round : Round := .CallCheckpointRound

/-- `StakingAbciApp.final_states`. -/
def final_states : List Round :=
  [.CheckpointCallPreparedRound, .FinishedStakingRound, .ServiceEvictedRound]

/-- `StakingAbciApp.cross_period_persisted_keys`. -/
def cross_period_persisted_keys : List String := ["service_staking_state"]

/-- `StakingAbciApp.db_pre_conditions`. -/
def db_pre_conditions : List (Round × List String) :=
  [(.CallCheckpointRound, [])]

end Staking

namespace Mux

/-- The `Event` enumeration of `tx_settlement_multiplexer_abci/rounds.py`. -/
inductive Event
  | DECISION_REQUESTING_DONE
  | BET_PLACEMENT_DONE
  | ROUND_TIMEOUT
  | UNRECOGNIZED
  deriving DecidableEq, Fintype, Repr

/-- The field of the decision-maker `SynchronizedData` read by
`PostTxSettlementRound.end_block`. -/
structure SynchronizedData where
  tx_submitter : String
  deriving DecidableEq, Repr

/-- Modelled from the spec: `DecisionRequestRound.auto_round_id()`.  The
round class and the framework's `auto_round_id` (the snake-case class name)
are outside the reviewed sources; only the identity of the string matters. -/
def decisionRequestRoundAutoId : String := "decision_request_round"

/-- Modelled from the spec: `BetPlacementRound.auto_round_id()`, as above. -/
def betPlacementRoundAutoId : String := "bet_placement_round"

/-- The static `submitter_to_event` lookup table built inside
`PostTxSettlementRound.end_block`
(`tx_settlement_multiplexer_abci/rounds.py`, lines 67-70). -/
def submitterToEvent : List (String × Event) :=
  [(decisionRequestRoundAutoId, Event.DECISION_REQUESTING_DONE),
   (betPlacementRoundAutoId, Event.BET_PLACEMENT_DONE)]

/-- The state of one `PostTxSettlementRound` instance.  Its `end_block` reads
only the synchronized data; the collection is kept to make that explicit. -/
structure PostTxSettlementRoundState where
  collection : List (String × String)
  synchronized_data : SynchronizedData
  deriving Repr

/-- `PostTxSettlementRound.end_block`
(`tx_settlement_multiplexer_abci/rounds.py`, lines 58-74): a total dispatch
on `tx_submitter` through the static table, defaulting to `UNRECOGNIZED`.
The result is a plain pair (never `none`), and the round state is returned
unchanged. -/
def postTxSettlementEndBlock (r : PostTxSettlementRoundState) :
    PostTxSettlementRoundState × (SynchronizedData × Event) :=
  let synced_data := r.synchronized_data
  let event :=
    (submitterToEvent.lookup synced_data.tx_submitter).getD Event.UNRECOGNIZED
  (r, (synced_data, event))

/-- The round classes of `tx_settlement_multiplexer_abci/rounds.py`. -/
inductive Round
  | PostTxSettlementRound
  | FinishedDecisionRequestTxRound
  | FinishedBetPlacementTxRound
  | FailedMultiplexerRound
  deriving DecidableEq, Fintype, Repr

/-- `TxSettlementMultiplexerAbciApp.transition_function`
(`tx_settlement_multiplexer_abci/rounds.py`, lines 114-124). -/
def transition_function : Round → Event → Option Round
  | .PostTxSettlementRound, .DECISION_REQUESTING_DONE =>
      some .FinishedDecisionRequestTxRound
  | .PostTxSettlementRound, .BET_PLACEMENT_DONE =>
      some .FinishedBetPlacementTxRound
  | .PostTxSettlementRound, .ROUND_TIMEOUT => some .PostTxSettlementRound
  | .PostTxSettlementRound, .UNRECOGNIZED => some .FailedMultiplexerRound
  | _, _ => none

/-- `TxSettlementMultiplexerAbciApp.initial_round_cls`. -/
def initial_round : Round := .PostTxSettlementRound

/-- `TxSettlementMultiplexerAbciApp.final_states`. -/
def final_states : List Round :=
  [.FinishedDecisionRequestTxRound, .FinishedBetPlacementTxRound,
   .FailedMultiplexerRound]

/-- `TxSettlementMultiplexerAbciApp` declares no
`cross_period_persisted_keys`.  Modelled from the spec: the base `AbciApp`
(not among the reviewed sources) defaults the attribute to the empty
frozenset, so the app's declared cross-period key set is empty. -/
def cross_period_persisted_keys : List String := []

/-- `TxSettlementMultiplexerAbciApp.db_pre_conditions`
(`tx_settlement_multiplexer_abci/rounds.py`, lines 133-135). -/
def db_pre_conditions : List (Round × List String) :=
  [(.PostTxSettlementRound, ["tx_submitter"])]

end Mux

namespace Subscription

/-- `SubscriptionRound.NO_TX_PAYLOAD`.  Modelled from the spec:
`SubscriptionRound` (decision_maker_abci.states.order_subscription) is
outside the reviewed sources; what matters is that the no-transaction
sentinel and the error sentinel are distinct designated strings. -/
def NO_TX_PAYLOAD : String := "no_tx"

/-- `SubscriptionRound.ERROR_PAYLOAD`.  Modelled from the spec, as above. -/
def ERROR_PAYLOAD : String := "error"

/-- The outcomes of the external calls made by
`OrderSubscriptionBehaviour.get_payload_content` and the values they leave
behind.  Each flag records whether the corresponding collaborator call
succeeded (`contract_interact`/`_resolve_did` returning a result). -/
structure SubscriptionFlow where
  use_nevermined : Bool
  balance_fetch_ok : Bool
  balance : ℤ
  approval_tx_ok : Bool
  did_doc_resolved : Bool
  order_tx_ok : Bool
  tx_hex : String
  deriving Repr

/-- `OrderSubscriptionBehaviour._should_purchase`
(`order_subscription.py`, lines 242-257). -/
def should_purchase (f : SubscriptionFlow) : Bool :=
  if ¬ f.use_nevermined then false
  else if ¬ f.balance_fetch_ok then false
  else decide (f.balance ≤ 0)

/-- `OrderSubscriptionBehaviour.get_payload_content`
(`order_subscription.py`, lines 259-284).  `_get_purchase_params` returns
`None` exactly when `_resolve_did` does, so the purchase-params check is the
`did_doc_resolved` flag. -/
def get_payload_content (f : SubscriptionFlow) : String :=
  if ¬ should_purchase f then NO_TX_PAYLOAD
  else if ¬ f.approval_tx_ok then ERROR_PAYLOAD
  else if ¬ f.did_doc_resolved then ERROR_PAYLOAD
  else if ¬ f.order_tx_ok then ERROR_PAYLOAD
  else f.tx_hex

end Subscription

namespace QueryEncoding

/-- The opening brace character, `U+007B`. -/
def lbrace : Char := Char.ofNat 123

/-- The closing brace character, `U+007D`. -/
def rbrace : Char := Char.ofNat 125

/-- Lowercase hexadecimal digit, as produced by CPython's `'%04x'`. -/
def hexDig (d : ℕ) : Char :=
  if d < 10 then Char.ofNat (48 + d) else Char.ofNat (87 + d)

/-- The four lowercase hex digits of `n < 0x10000`, most significant
first. -/
def hex4 (n : ℕ) : List Char :=
  [hexDig (n / 4096 % 16), hexDig (n / 256 % 16), hexDig (n / 16 % 16),
   hexDig (n % 16)]

/-- CPython's `json.encoder.py_encode_basestring_ascii` escaping of one
character (the default `ensure_ascii=True` encoder used by `json.dumps`):
`"` and `\` get a backslash escape, the control characters BS, HT, LF, FF,
CR get their short escapes, the remaining printable ASCII range `0x20`-`0x7e`
passes through, every other character below `0x10000` becomes `\uXXXX`, and
characters at or above `0x10000` become a UTF-16 surrogate pair
`\uXXXX\uXXXX`. -/
def escapeChar (c : Char) : List Char :=
  if c = '"' then ['\\', '"']
  else if c = '\\' then ['\\', '\\']
  else if c.toNat = 8 then ['\\', 'b']
  else if c.toNat = 9 then ['\\', 't']
  else if c.toNat = 10 then ['\\', 'n']
  else if c.toNat = 12 then ['\\', 'f']
  else if c.toNat = 13 then ['\\', 'r']
  else if 32 ≤ c.toNat ∧ c.toNat ≤ 126 then [c]
  else if c.toNat < 65536 then '\\' :: 'u' :: hex4 c.toNat
  else
    let n := c.toNat - 65536
    ('\\' :: 'u' :: hex4 (55296 + n / 1024)) ++
      ('\\' :: 'u' :: hex4 (56320 + n % 1024))

/-- Escape a whole character sequence. -/
def escapeList : List Char → List Char
  | [] => []
  | c :: rest => escapeChar c ++ escapeList rest

/-- The characters of `'{"query": '`: the fixed prefix of
`json.dumps({"query": q}, sort_keys=True)` for the one-key dictionary. -/
def queryHeader : List Char :=
  lbrace :: '"' :: 'q' :: 'u' :: 'e' :: 'r' :: 'y' :: '"' :: ':' :: ' ' ::
    '"' :: []

/-- `json.dumps({"query": query}, sort_keys=True)`: for a one-key dictionary
with a string value, CPython produces exactly
`'{"query": ' + encode_basestring_ascii(query) + '}'`, where the encoded
string is the escaped value wrapped in double quotes. -/
def json_dumps_query (query : String) : String :=
  String.mk (queryHeader ++ escapeList query.data ++ ('"' :: rbrace :: []))

/-- `to_content` from `market_manager_abci/graph_tooling/requests.py`,
lines 40-45: serialize `{"query": query}` with `json.dumps(.., sort_keys=True)`
and encode the result with `.encode("utf-8")`.  The byte string is modelled
as the list of UTF-8 code units. -/
def to_content (query : String) : List UInt8 :=
  (json_dumps_query query).data.flatMap String.utf8EncodeChar

/-- UTF-8 decoding of a byte sequence, restricted to its single-byte
(ASCII) case: a byte below `0x80` decodes to the character with that code,
and any other byte starts a multi-byte sequence and is rejected.  `to_content`
provably emits only ASCII bytes (`ensure_ascii`), so on its outputs this
agrees with full UTF-8 decoding. -/
def asciiDecode : List UInt8 → Option (List Char)
  | [] => some []
  | b :: rest =>
    if b.toNat < 128 then
      (asciiDecode rest).map (Char.ofNat b.toNat :: ·)
    else none

/-- The numeric value of one hexadecimal digit (JSON allows both cases). -/
def hexVal (c : Char) : Option ℕ :=
  if 48 ≤ c.toNat ∧ c.toNat ≤ 57 then some (c.toNat - 48)
  else if 97 ≤ c.toNat ∧ c.toNat ≤ 102 then some (c.toNat - 87)
  else if 65 ≤ c.toNat ∧ c.toNat ≤ 70 then some (c.toNat - 55)
  else none

/-- The value of four hexadecimal digit characters, most significant
first. -/
def hexQuad (h1 h2 h3 h4 : Char) : Option ℕ :=
  (hexVal h1).bind fun v1 =>
    (hexVal h2).bind fun v2 =>
      (hexVal h3).bind fun v3 =>
        (hexVal h4).map fun v4 => v1 * 4096 + v2 * 256 + v3 * 16 + v4

/-- Decode the JSON escape sequence that follows a backslash: return the
denoted character together with the number of input characters consumed.
Surrogate pairs are combined into the code point they denote; lone
surrogates and malformed escapes are rejected. -/
def decodeEscape (r : List Char) : Option (Char × ℕ) :=
  match r with
  | [] => none
  | e :: r1 =>
    if e = '"' then some ('"', 1)
    else if e = '\\' then some ('\\', 1)
    else if e = 'b' then some (Char.ofNat 8, 1)
    else if e = 't' then some (Char.ofNat 9, 1)
    else if e = 'n' then some (Char.ofNat 10, 1)
    else if e = 'f' then some (Char.ofNat 12, 1)
    else if e = 'r' then some (Char.ofNat 13, 1)
    else if e = 'u' then
      (match r1 with
      | h1 :: h2 :: h3 :: h4 :: r2 =>
        (hexQuad h1 h2 h3 h4).bind fun n =>
          if 55296 ≤ n ∧ n ≤ 56319 then
            (match r2 with
            | b1 :: u1 :: g1 :: g2 :: g3 :: g4 :: _ =>
              if b1 = '\\' ∧ u1 = 'u' then
                (hexQuad g1 g2 g3 g4).bind fun m =>
                  if 56320 ≤ m ∧ m ≤ 57343 then
                    some
                      (Char.ofNat
                        (65536 + (n - 55296) * 1024 + (m - 56320)), 11)
                  else none
              else none
            | _ => none)
          else if 56320 ≤ n ∧ n ≤ 57343 then none
          else some (Char.ofNat n, 5)
      | _ => none)
    else none

/-- Parse the body of the JSON string that follows `'{"query": "'`: read
JSON string characters and escapes up to the closing quote, and require the
closing brace to be the only remaining input. -/
def parseStringBody (cs : List Char) : Option (List Char) :=
  match cs with
  | [] => none
  | c :: rest =>
    if c = '"' then if rest = [rbrace] then some [] else none
    else if c = '\\' then
      match decodeEscape rest with
      | some (ch, k) => (parseStringBody (rest.drop k)).map (ch :: ·)
      | none => none
    else (parseStringBody rest).map (c :: ·)
  termination_by cs.length
  decreasing_by
  · simp [List.length_drop]
    omega
  · simp

/-- Parse the decoded text of a `to_content` payload as the JSON object
`{"query": <string>}` and return the query string. -/
def parsePayload (cs : List Char) : Option String :=
  if cs.take 11 = queryHeader then
    (parseStringBody (cs.drop 11)).map (fun l => String.mk l)
  else none

/-- Decode a `to_content` byte payload as UTF-8 and parse it as the JSON
object `{"query": <string>}`. -/
def decodePayload (bs : List UInt8) : Option String :=
  (asciiDecode bs).bind parsePayload

end QueryEncoding

theorem qceil_eq_ceil (q : ℚ) : qceil q = ⌈q⌉ := by
  have h : ⌊-q⌋ = -⌈q⌉ := Int.floor_neg
  rw [Rat.floor_def, Rat.num_neg_eq_neg_num, Rat.den_neg_eq_den] at h
  unfold qceil
  omega

/-- Evaluation rule for `floatRoundPos` in the round-down case, pinning the
binade exponent and the scaled significand's floor. -/
theorem floatRoundPos_eq_of (q : ℚ) (e f : ℤ)
    (hlog : Int.log 2 q = e)
    (hf : ⌊q * 2 ^ ((52 : ℤ) - e)⌋ = f)
    (hr : q * 2 ^ ((52 : ℤ) - e) - (f : ℚ) < 1 / 2) :
    floatRoundPos q = (f : ℚ) * 2 ^ (e - (52 : ℤ)) := by
  simp only [floatRoundPos, hlog, hf]
  rw [if_neg (by linarith), if_pos hr]

theorem floatRound_eq_of_pos (q : ℚ) (hq : 0 < q) (e f : ℤ)
    (hlog : Int.log 2 q = e)
    (hf : ⌊q * 2 ^ ((52 : ℤ) - e)⌋ = f)
    (hr : q * 2 ^ ((52 : ℤ) - e) - (f : ℚ) < 1 / 2) :
    floatRound q = (f : ℚ) * 2 ^ (e - (52 : ℤ)) := by
  rw [floatRound, if_neg hq.ne', if_pos hq]
  exact floatRoundPos_eq_of q e f hlog hf hr

theorem floatRound_zero : floatRound 0 = 0 := by
  rw [floatRound, if_pos rfl]

/-- The quotient `(10^18 + 1) / 10^18 = 1 + 10^-18` is within half an ulp of
`1`, so Python's float division returns exactly `1.0`. -/
theorem float_div_cex : float_div (10 ^ 18 + 1) (10 ^ 18) = 1 := by
  have hq : (((10 ^ 18 + 1 : ℤ) : ℚ) / ((10 ^ 18 : ℤ) : ℚ)) =
      ((10 ^ 18 + 1 : ℚ) / (10 ^ 18 : ℚ)) := by push_cast; ring
  have hlog : Int.log 2 ((10 ^ 18 + 1 : ℚ) / (10 ^ 18 : ℚ)) = 0 := by
    rw [Int.log_of_one_le_right 2 (by norm_num)]
    have hfl : ⌊(10 ^ 18 + 1 : ℚ) / (10 ^ 18 : ℚ)⌋₊ = 1 := by
      rw [Nat.floor_eq_iff (by positivity)]
      norm_num
    rw [hfl, Nat.log_one_right]
    norm_num
  have hz : ((2 : ℚ) ^ ((52 : ℤ) - 0)) = 2 ^ (52 : ℕ) := by
    norm_num
  have hf : ⌊((10 ^ 18 + 1 : ℚ) / (10 ^ 18 : ℚ)) * 2 ^ ((52 : ℤ) - 0)⌋ =
      2 ^ 52 := by
    rw [hz, Int.floor_eq_iff]
    norm_num
  rw [float_div, hq,
    floatRound_eq_of_pos _ (by norm_num) 0 (2 ^ 52) hlog hf
      (by rw [hz]; norm_num)]
  norm_num

/-- The boundary quotient `3600 * 10^18 / 10^18` is exactly the
representable value `3600`, so Python's float division returns `3600.0`. -/
theorem float_div_boundary : float_div (3600 * 10 ^ 18) (10 ^ 18) = 3600 := by
  have hq : (((3600 * 10 ^ 18 : ℤ) : ℚ) / ((10 ^ 18 : ℤ) : ℚ)) =
      (3600 : ℚ) := by
    norm_num
  have hlog : Int.log 2 (3600 : ℚ) = 11 := by
    rw [Int.log_of_one_le_right 2 (by norm_num)]
    have hfl : ⌊(3600 : ℚ)⌋₊ = 3600 := by
      rw [Nat.floor_eq_iff (by positivity)]
      norm_num
    rw [hfl, @Nat.log_eq_of_pow_le_of_lt_pow 2 11 3600 (by norm_num)
      (by norm_num)]
    norm_num
  have hz : ((2 : ℚ) ^ ((52 : ℤ) - 11)) = 2 ^ (41 : ℕ) := by
    norm_num
  have hf : ⌊(3600 : ℚ) * 2 ^ ((52 : ℤ) - 11)⌋ = 3600 * 2 ^ 41 := by
    rw [hz, Int.floor_eq_iff]
    norm_num
  rw [float_div, hq,
    floatRound_eq_of_pos _ (by norm_num) 11 (3600 * 2 ^ 41) hlog hf
      (by rw [hz]; norm_num)]
  norm_num

theorem float_div_zero_num : float_div 0 (10 ^ 18) = 0 := by
  rw [float_div]
  norm_num
  exact floatRound_zero

set_option maxRecDepth 4000 in
/--
C1, counterexample: the claim's exact-arithmetic formula is false of the
program: at ratio `R = 10^18 + 1`, `D = now - L = 1`, `P = 0`,
`C - C0 = 2`, the code's float division rounds `1 + 10^-18` to `1.0` and
computes `required = 2`, so `is_staking_kpi_met` returns `True`, while the
claim's exact `ceil(max(D*R/1e18, P*R/1e18)) + 1 = 3` makes its
biconditional demand `False`.
-/
theorem is_staking_kpi_met_counterexample :
    is_staking_kpi_met StakingState.STAKED 2 0 0 0 (10 ^ 18 + 1) 1 = true ∧
    ¬((2 : ℤ) - 0 ≥
      ⌈max ((((1 - 0) * (10 ^ 18 + 1) : ℤ) : ℚ) / (((10 : ℤ) ^ 18 : ℤ) : ℚ))
          (((0 * (10 ^ 18 + 1) : ℤ) : ℚ) /
            (((10 : ℤ) ^ 18 : ℤ) : ℚ))⌉ + 1) := by
  constructor
  · simp only [is_staking_kpi_met, LIVENESS_RATIO_SCALE_FACTOR,
      REQUIRED_MECH_REQUESTS_SAFETY_MARGIN, ne_eq, not_true_eq_false,
      if_false, decide_eq_true_eq]
    rw [show ((1 - 0) * (10 ^ 18 + 1) : ℤ) = (10 ^ 18 + 1 : ℤ) from by ring,
      show ((0 * (10 ^ 18 + 1)) : ℤ) = (0 : ℤ) from by ring,
      float_div_cex, float_div_zero_num, max_eq_left (by norm_num),
      qceil_eq_ceil]
    norm_num
  · rw [show ((1 - 0) * (10 ^ 18 + 1) : ℤ) = (10 ^ 18 + 1 : ℤ) from by ring,
      show ((0 * (10 ^ 18 + 1)) : ℤ) = (0 : ℤ) from by ring,
      max_eq_left (by norm_num)]
    have hc : ⌈(((10 ^ 18 + 1 : ℤ)) : ℚ) / (((10 : ℤ) ^ 18 : ℤ) : ℚ)⌉ =
        (2 : ℤ) := by
      rw [Int.ceil_eq_iff]
      constructor <;> norm_num
    rw [hc]
    norm_num

set_option maxRecDepth 4000 in
/--
C1, amended: for an execution of `is_staking_kpi_met` in which the service
is staked, with fetched ratio `R` (scale `1e18`), liveness period `P`,
current timestamp `now`, last checkpoint timestamp `L`, current request
count `C` and request count at the last checkpoint `C0`, and with the two
products small enough that the float quotients are finite (beyond that
CPython raises `OverflowError`), the required number of requests is
`ceil (max (fl(D*R/1e18)) (fl(P*R/1e18))) + 1` where `fl` is the correctly
rounded binary64 value of the exact quotient (Python float true division),
and the function returns `true` iff `C - C0` is at least that number; for
`R = 1e18`, `P = 3600`, `now - L = 3600` the products are exactly
representable, the float quotient equals the exact ratio `3600`, the
required number is `3601`, and the result is `true` at `C - C0 = 3601` and
`false` at `C - C0 = 3600`.
-/
theorem is_staking_kpi_met_float_correct (C C0 L P R now : ℤ)
    (h1 : |((now - L) * R : ℤ)| ≤ 10 ^ 326)
    (h2 : |(P * R : ℤ)| ≤ 10 ^ 326) :
    (is_staking_kpi_met StakingState.STAKED C C0 L P R now = true ↔
      C - C0 ≥
        qceil (max (float_div ((now - L) * R) (10 ^ 18))
          (float_div (P * R) (10 ^ 18))) + 1) ∧
    float_div (3600 * 10 ^ 18) (10 ^ 18) =
      ((3600 * 10 ^ 18 : ℤ) : ℚ) / (((10 : ℤ) ^ 18 : ℤ) : ℚ) ∧
    qceil (float_div (3600 * 10 ^ 18) (10 ^ 18)) + 1 = 3601 ∧
    is_staking_kpi_met StakingState.STAKED 3601 0 0 3600 (10 ^ 18) 3600 =
      true ∧
    is_staking_kpi_met StakingState.STAKED 3600 0 0 3600 (10 ^ 18) 3600 =
      false := by
  refine ⟨?_, ?_, ?_, ?_, ?_⟩
  · simp only [is_staking_kpi_met, LIVENESS_RATIO_SCALE_FACTOR,
      REQUIRED_MECH_REQUESTS_SAFETY_MARGIN, ne_eq, not_true_eq_false,
      if_false, ge_iff_le, decide_eq_true_eq]
  · rw [float_div_boundary]
    norm_num
  · rw [float_div_boundary, qceil_eq_ceil]
    norm_num
  · simp only [is_staking_kpi_met, LIVENESS_RATIO_SCALE_FACTOR,
      REQUIRED_MECH_REQUESTS_SAFETY_MARGIN, ne_eq, not_true_eq_false,
      if_false, decide_eq_true_eq]
    rw [show ((3600 - 0) * 10 ^ 18 : ℤ) = (3600 * 10 ^ 18 : ℤ) from by ring,
      float_div_boundary, max_self, qceil_eq_ceil]
    norm_num
  · simp only [is_staking_kpi_met, LIVENESS_RATIO_SCALE_FACTOR,
      REQUIRED_MECH_REQUESTS_SAFETY_MARGIN, ne_eq, not_true_eq_false,
      if_false, decide_eq_false_iff_not]
    rw [show ((3600 - 0) * 10 ^ 18 : ℤ) = (3600 * 10 ^ 18 : ℤ) from by ring,
      float_div_boundary, max_self, qceil_eq_ceil]
    norm_num

set_option maxRecDepth 4000 in
/-- Witness for `is_staking_kpi_met_float_correct` at the boundary input. -/
theorem is_staking_kpi_met_float_correct_witness :
    (is_staking_kpi_met StakingState.STAKED 3601 0 0 3600 (10 ^ 18) 3600 =
        true ↔
      (3601 : ℤ) - 0 ≥
        qceil (max (float_div ((3600 - 0) * 10 ^ 18) (10 ^ 18))
          (float_div (3600 * 10 ^ 18) (10 ^ 18))) + 1) ∧
    is_staking_kpi_met StakingState.STAKED 3601 0 0 3600 (10 ^ 18) 3600 =
      true :=
  ⟨(is_staking_kpi_met_float_correct 3601 0 0 3600 (10 ^ 18) 3600
      (by decide) (by decide)).1,
   (is_staking_kpi_met_float_correct 3601 0 0 3600 (10 ^ 18) 3600
      (by decide) (by decide)).2.2.2.1⟩

/--
C9: in the first period (`period_count = 0`)
`CheckStopTradingBehaviour.async_act` always submits `stop_trading = false`
without consulting `disable_trading` or the staking KPI; from the second
period onward the flag is `disable_trading` or else, when
`stop_trading_if_staking_kpi_met` is set, the fetched KPI result.
-/
theorem check_stop_trading_first_period (p : ℕ) (dt f m : Bool) :
    (p = 0 → check_stop_trading_flag p dt f m = false) ∧
    (p ≠ 0 → check_stop_trading_flag p dt f m = (dt || (f && m))) := by
  constructor
  · intro h
    subst h
    rfl
  · intro h
    simp only [check_stop_trading_flag, is_first_period, beq_iff_eq, h,
      if_false]
    cases f <;> cases dt <;> cases m <;> simp

/-- Witness for `check_stop_trading_first_period` at concrete inputs. -/
theorem check_stop_trading_first_period_witness :
    check_stop_trading_flag 0 true true true = false ∧
    check_stop_trading_flag 1 true false true = (true || (false && true)) :=
  ⟨(check_stop_trading_first_period 0 true true true).1 rfl,
   (check_stop_trading_first_period 1 true false true).2 (by decide)⟩

/--
C8: the no-majority and round-timeout events route the producing round back
to itself: `StakingAbciApp` maps `(CallCheckpointRound, NO_MAJORITY)` and
`(CallCheckpointRound, ROUND_TIMEOUT)` to `CallCheckpointRound`, and
`TxSettlementMultiplexerAbciApp` maps `(PostTxSettlementRound,
ROUND_TIMEOUT)` to `PostTxSettlementRound`.
-/
theorem timeout_no_majority_self_loops :
    Staking.transition_function Staking.Round.CallCheckpointRound
        Staking.Event.NO_MAJORITY = some Staking.Round.CallCheckpointRound ∧
    Staking.transition_function Staking.Round.CallCheckpointRound
        Staking.Event.ROUND_TIMEOUT = some Staking.Round.CallCheckpointRound ∧
    Mux.transition_function Mux.Round.PostTxSettlementRound
        Mux.Event.ROUND_TIMEOUT = some Mux.Round.PostTxSettlementRound := by
  decide

/--
C7, counterexample: the claim fails for `TxSettlementMultiplexerAbciApp`:
the initial round's declared pre-condition key set `{tx_submitter}` is
neither empty nor a subset of that app's declared cross-period persisted
keys (the app declares none).
-/
theorem db_pre_conditions_counterexample :
    ¬ (((Mux.db_pre_conditions.lookup Mux.initial_round).getD []) = [] ∨
        ∀ k ∈ (Mux.db_pre_conditions.lookup Mux.initial_round).getD [],
          k ∈ Mux.cross_period_persisted_keys) := by
  decide

/--
C7, amended: `StakingAbciApp` satisfies the property (its initial round's
declared pre-condition key set is empty), while for
`TxSettlementMultiplexerAbciApp` the initial round's pre-condition key
`tx_submitter` is not among that app's declared cross-period persisted keys
(it is expected to be supplied by the preceding transaction-settlement app).
-/
theorem db_pre_conditions_amended :
    (Staking.db_pre_conditions.lookup Staking.initial_round).getD
        ["dummy"] = [] ∧
    "tx_submitter" ∈ (Mux.db_pre_conditions.lookup Mux.initial_round).getD
        [] ∧
    "tx_submitter" ∉ Mux.cross_period_persisted_keys := by
  decide

/--
C6, counterexample: the claim fails as stated: when the balance-check
contract call fails, `get_payload_content` returns the no-transaction
sentinel `NO_TX_PAYLOAD` (via `_should_purchase` returning `False`), which
is distinct from the error sentinel `ERROR_PAYLOAD`.
-/
theorem get_payload_content_counterexample :
    Subscription.get_payload_content
        ⟨true, false, 0, true, true, true, "0xdead"⟩ =
      Subscription.NO_TX_PAYLOAD ∧
    Subscription.NO_TX_PAYLOAD ≠ Subscription.ERROR_PAYLOAD := by
  decide

/--
C6, amended: every failure in the purchase flow short-circuits the remaining
steps and returns an explicit sentinel value instead of raising: a failed
balance check (like a disabled or already-owned subscription) returns the
no-transaction sentinel, while a failed DID-document resolution or a failed
transaction-build contract call (approval or order) returns the error
sentinel; only when every step succeeds is the built transaction hash
returned.
-/
theorem get_payload_content_short_circuit (f : Subscription.SubscriptionFlow) :
    (f.use_nevermined = true → f.balance_fetch_ok = false →
      Subscription.get_payload_content f = Subscription.NO_TX_PAYLOAD) ∧
    (Subscription.should_purchase f = true → f.approval_tx_ok = false →
      Subscription.get_payload_content f = Subscription.ERROR_PAYLOAD) ∧
    (Subscription.should_purchase f = true → f.approval_tx_ok = true →
      f.did_doc_resolved = false →
      Subscription.get_payload_content f = Subscription.ERROR_PAYLOAD) ∧
    (Subscription.should_purchase f = true → f.approval_tx_ok = true →
      f.did_doc_resolved = true → f.order_tx_ok = false →
      Subscription.get_payload_content f = Subscription.ERROR_PAYLOAD) ∧
    (Subscription.should_purchase f = true → f.approval_tx_ok = true →
      f.did_doc_resolved = true → f.order_tx_ok = true →
      Subscription.get_payload_content f = f.tx_hex) := by
  refine ⟨?_, ?_, ?_, ?_, ?_⟩
  · intro h1 h2
    simp [Subscription.get_payload_content, Subscription.should_purchase, h1,
      h2]
  · intro h1 h2
    simp [Subscription.get_payload_content, h1, h2]
  · intro h1 h2 h3
    simp [Subscription.get_payload_content, h1, h2, h3]
  · intro h1 h2 h3 h4
    simp [Subscription.get_payload_content, h1, h2, h3, h4]
  · intro h1 h2 h3 h4
    simp [Subscription.get_payload_content, h1, h2, h3, h4]

/-- Witness for `get_payload_content_short_circuit` at concrete flows. -/
theorem get_payload_content_short_circuit_witness :
    Subscription.get_payload_content ⟨true, true, 0, false, true, true, "0xa"⟩ =
      Subscription.ERROR_PAYLOAD ∧
    Subscription.get_payload_content ⟨true, true, 0, true, true, true, "0xa"⟩ =
      "0xa" :=
  ⟨(get_payload_content_short_circuit
      ⟨true, true, 0, false, true, true, "0xa"⟩).2.1 (by decide) rfl,
   (get_payload_content_short_circuit
      ⟨true, true, 0, true, true, true, "0xa"⟩).2.2.2.2 (by decide) rfl rfl
      rfl⟩

/--
C5: transition-table closure: in `StakingAbciApp`, `CallCheckpointRound` has
an entry for every event it can produce (`DONE`, `SERVICE_NOT_STAKED`,
`SERVICE_EVICTED`, `NEXT_CHECKPOINT_NOT_REACHED_YET`, `NO_MAJORITY` from
`end_block`, plus the synthesized `ROUND_TIMEOUT`) — indeed for every event
of the enumeration — and in `TxSettlementMultiplexerAbciApp`,
`PostTxSettlementRound` likewise has an entry for all four events; rounds in
`final_states` have no outgoing transitions.  Every event actually produced
by the two `end_block` implementations is therefore covered.
-/
theorem transition_tables_closed :
    (∀ e : Staking.Event,
      (Staking.transition_function Staking.Round.CallCheckpointRound
        e).isSome) ∧
    (∀ r ∈ Staking.final_states, ∀ e, Staking.transition_function r e =
      none) ∧
    (∀ e : Mux.Event,
      (Mux.transition_function Mux.Round.PostTxSettlementRound e).isSome) ∧
    (∀ r ∈ Mux.final_states, ∀ e, Mux.transition_function r e = none) ∧
    (∀ (r : Staking.CallCheckpointRoundState) (d : Staking.SynchronizedData)
      (e : Staking.Event), (Staking.callCheckpointEndBlock r).2 = some (d, e) →
      (Staking.transition_function Staking.Round.CallCheckpointRound
        e).isSome) ∧
    (∀ m : Mux.PostTxSettlementRoundState,
      (Mux.transition_function Mux.Round.PostTxSettlementRound
        ((Mux.postTxSettlementEndBlock m).2).2).isSome) := by
  refine ⟨by decide, by decide, by decide, by decide, ?_, ?_⟩
  · intro r d e _
    cases e <;> decide
  · intro m
    cases he : ((Mux.postTxSettlementEndBlock m).2).2 <;> decide

/-- Witness for `transition_tables_closed` at concrete inputs. -/
theorem transition_tables_closed_witness :
    (Staking.transition_function Staking.Round.FinishedStakingRound
      Staking.Event.DONE = none) ∧
    (Staking.transition_function Staking.Round.CallCheckpointRound
      Staking.Event.NO_MAJORITY).isSome ∧
    (Mux.transition_function Mux.Round.FailedMultiplexerRound
      Mux.Event.UNRECOGNIZED = none) :=
  ⟨transition_tables_closed.2.1 Staking.Round.FinishedStakingRound
      (by decide) Staking.Event.DONE,
   transition_tables_closed.2.2.2.2.1
      ⟨[], ⟨"s", none, StakingState.STAKED, []⟩, 2, 1⟩
      ⟨"s", none, StakingState.STAKED, []⟩ Staking.Event.NO_MAJORITY
      (by decide),
   transition_tables_closed.2.2.2.1 Mux.Round.FailedMultiplexerRound
      (by decide) Mux.Event.UNRECOGNIZED⟩

/--
C3: `PostTxSettlementRound.end_block` always returns a pair whose data is
the synchronized data and whose event is `DECISION_REQUESTING_DONE` when
`tx_submitter` equals `DecisionRequestRound`'s auto round id,
`BET_PLACEMENT_DONE` when it equals `BetPlacementRound`'s auto round id, and
`UNRECOGNIZED` for every other string, decided by the static
`submitterToEvent` lookup table; being a total function into a plain pair,
it never raises and never returns `None`, and it reads no collected
payloads.
-/
theorem postTxSettlement_end_block_routing
    (r : Mux.PostTxSettlementRoundState) :
    (Mux.postTxSettlementEndBlock r).1 = r ∧
    ((Mux.postTxSettlementEndBlock r).2).1 = r.synchronized_data ∧
    (r.synchronized_data.tx_submitter = Mux.decisionRequestRoundAutoId →
      ((Mux.postTxSettlementEndBlock r).2).2 =
        Mux.Event.DECISION_REQUESTING_DONE) ∧
    (r.synchronized_data.tx_submitter = Mux.betPlacementRoundAutoId →
      ((Mux.postTxSettlementEndBlock r).2).2 = Mux.Event.BET_PLACEMENT_DONE) ∧
    (r.synchronized_data.tx_submitter ≠ Mux.decisionRequestRoundAutoId →
      r.synchronized_data.tx_submitter ≠ Mux.betPlacementRoundAutoId →
      ((Mux.postTxSettlementEndBlock r).2).2 = Mux.Event.UNRECOGNIZED) := by
  refine ⟨rfl, rfl, ?_, ?_, ?_⟩
  · intro h
    simp [Mux.postTxSettlementEndBlock, Mux.submitterToEvent, List.lookup, h,
      Mux.decisionRequestRoundAutoId, Mux.betPlacementRoundAutoId]
  · intro h
    simp [Mux.postTxSettlementEndBlock, Mux.submitterToEvent, List.lookup, h,
      Mux.decisionRequestRoundAutoId, Mux.betPlacementRoundAutoId]
  · intro h1 h2
    have e1 : (r.synchronized_data.tx_submitter ==
        Mux.decisionRequestRoundAutoId) = false := beq_eq_false_iff_ne.mpr h1
    have e2 : (r.synchronized_data.tx_submitter ==
        Mux.betPlacementRoundAutoId) = false := beq_eq_false_iff_ne.mpr h2
    simp [Mux.postTxSettlementEndBlock, Mux.submitterToEvent, List.lookup, e1,
      e2]

/-- Witness for `postTxSettlement_end_block_routing` at concrete states. -/
theorem postTxSettlement_end_block_routing_witness :
    ((Mux.postTxSettlementEndBlock ⟨[], ⟨"decision_request_round"⟩⟩).2).2 =
      Mux.Event.DECISION_REQUESTING_DONE ∧
    ((Mux.postTxSettlementEndBlock ⟨[], ⟨"bet_placement_round"⟩⟩).2).2 =
      Mux.Event.BET_PLACEMENT_DONE ∧
    ((Mux.postTxSettlementEndBlock ⟨[], ⟨"other_round"⟩⟩).2).2 =
      Mux.Event.UNRECOGNIZED :=
  ⟨(postTxSettlement_end_block_routing ⟨[], ⟨"decision_request_round"⟩⟩).2.2.1
      rfl,
   (postTxSettlement_end_block_routing
      ⟨[], ⟨"bet_placement_round"⟩⟩).2.2.2.1 rfl,
   (postTxSettlement_end_block_routing ⟨[], ⟨"other_round"⟩⟩).2.2.2.2
      (by decide) (by decide)⟩

/--
C2: `CallCheckpointRound.end_block` post-processes the generic quorum
result: a pair whose event is not `DONE` is returned unchanged; a `DONE`
pair is remapped, by inspecting only the merged synchronized data, to
`SERVICE_NOT_STAKED` when the staking state is `UNSTAKED`, else to
`SERVICE_EVICTED` when it is `EVICTED`, else to
`NEXT_CHECKPOINT_NOT_REACHED_YET` when `most_voted_tx_hash` is `none`, else
left as `DONE`; the remapping is the pure function `checkpointRemap` of the
merged data, applied to the generic result without re-running the quorum
computation.
-/
theorem callCheckpoint_end_block_remaps (r : Staking.CallCheckpointRoundState)
    (d : Staking.SynchronizedData) (e : Staking.Event) :
    Staking.callCheckpointEndBlockPost (some (d, e)) =
      some (d, Staking.checkpointRemap d e) ∧
    Staking.callCheckpointEndBlockPost none = none ∧
    (e ≠ Staking.Event.DONE → Staking.checkpointRemap d e = e) ∧
    (e = Staking.Event.DONE →
      Staking.checkpointRemap d e =
        (if d.service_staking_state = StakingState.UNSTAKED then
          Staking.Event.SERVICE_NOT_STAKED
        else if d.service_staking_state = StakingState.EVICTED then
          Staking.Event.SERVICE_EVICTED
        else if d.most_voted_tx_hash = none then
          Staking.Event.NEXT_CHECKPOINT_NOT_REACHED_YET
        else Staking.Event.DONE)) ∧
    (Staking.callCheckpointEndBlock r).2 =
      Staking.callCheckpointEndBlockPost
        ((Staking.collectSameUntilThresholdEndBlock r).2) := by
  refine ⟨?_, rfl, ?_, ?_, rfl⟩
  · cases e <;>
      simp [Staking.callCheckpointEndBlockPost, Staking.checkpointRemap] <;>
      split_ifs <;> simp
  · intro h
    simp [Staking.checkpointRemap, h]
  · intro h
    subst h
    simp [Staking.checkpointRemap]

/-- Witness for `callCheckpoint_end_block_remaps` at concrete inputs. -/
theorem callCheckpoint_end_block_remaps_witness :
    Staking.checkpointRemap ⟨"s", none, StakingState.STAKED, []⟩
      Staking.Event.NO_MAJORITY = Staking.Event.NO_MAJORITY ∧
    Staking.checkpointRemap ⟨"s", none, StakingState.UNSTAKED, []⟩
      Staking.Event.DONE =
      (if (StakingState.UNSTAKED : StakingState) = StakingState.UNSTAKED then
        Staking.Event.SERVICE_NOT_STAKED
      else if (StakingState.UNSTAKED : StakingState) = StakingState.EVICTED
        then Staking.Event.SERVICE_EVICTED
      else if (none : Option String) = none then
        Staking.Event.NEXT_CHECKPOINT_NOT_REACHED_YET
      else Staking.Event.DONE) :=
  ⟨(callCheckpoint_end_block_remaps ⟨[], ⟨"s", none, StakingState.STAKED, []⟩,
      1, 1⟩ ⟨"s", none, StakingState.STAKED, []⟩
      Staking.Event.NO_MAJORITY).2.2.1 (by decide),
   (callCheckpoint_end_block_remaps ⟨[], ⟨"s", none, StakingState.STAKED, []⟩,
      1, 1⟩ ⟨"s", none, StakingState.UNSTAKED, []⟩
      Staking.Event.DONE).2.2.2.1 rfl⟩

/--
C4: both `end_block` implementations of this repository are idempotent: they
return the round state unchanged, so a second invocation on the same
collected payload set and synchronized data yields the same `(data, event)`
decision, and the merged data of a successful quorum is always computed from
the pre-round synchronized data (payloads are never merged a second time).
-/
theorem end_block_idempotent (r : Staking.CallCheckpointRoundState)
    (m : Mux.PostTxSettlementRoundState) :
    ((Staking.callCheckpointEndBlock r).1 = r ∧
      Staking.callCheckpointEndBlock ((Staking.callCheckpointEndBlock r).1) =
        Staking.callCheckpointEndBlock r) ∧
    ((Mux.postTxSettlementEndBlock m).1 = m ∧
      Mux.postTxSettlementEndBlock ((Mux.postTxSettlementEndBlock m).1) =
        Mux.postTxSettlementEndBlock m) ∧
    (∀ v, Staking.mostVotedPayload r = some v →
      (Staking.callCheckpointEndBlock r).2 =
        Staking.callCheckpointEndBlockPost
          (some (Staking.mergeCheckpoint r.synchronized_data r.collection v,
            Staking.Event.DONE))) := by
  have hfst : (Staking.callCheckpointEndBlock r).1 = r := by
    unfold Staking.callCheckpointEndBlock
      Staking.collectSameUntilThresholdEndBlock
    rcases hm : Staking.mostVotedPayload r with _ | v
    · simp only
      split <;> rfl
    · rfl
  refine ⟨⟨hfst, by rw [hfst]⟩, ⟨rfl, rfl⟩, ?_⟩
  intro v hv
  unfold Staking.callCheckpointEndBlock
    Staking.collectSameUntilThresholdEndBlock
  rw [hv]

/-- Witness for `end_block_idempotent`: a concrete round whose collection
has reached the threshold. -/
theorem end_block_idempotent_witness :
    (Staking.callCheckpointEndBlock
        ⟨[("a", ⟨"s", some "h", StakingState.STAKED⟩),
          ("b", ⟨"s", some "h", StakingState.STAKED⟩)],
          ⟨"t", none, StakingState.UNSTAKED, []⟩, 2, 3⟩).2 =
      Staking.callCheckpointEndBlockPost
        (some (Staking.mergeCheckpoint ⟨"t", none, StakingState.UNSTAKED, []⟩
          [("a", ⟨"s", some "h", StakingState.STAKED⟩),
            ("b", ⟨"s", some "h", StakingState.STAKED⟩)]
          ⟨"s", some "h", StakingState.STAKED⟩, Staking.Event.DONE)) :=
  (end_block_idempotent
      ⟨[("a", ⟨"s", some "h", StakingState.STAKED⟩),
        ("b", ⟨"s", some "h", StakingState.STAKED⟩)],
        ⟨"t", none, StakingState.UNSTAKED, []⟩, 2, 3⟩
      ⟨[], ⟨"x"⟩⟩).2.2 ⟨"s", some "h", StakingState.STAKED⟩ (by decide)

namespace QueryEncoding

theorem hexVal_hexDig : ∀ d < 16, hexVal (hexDig d) = some d := by decide

theorem hexQuad_hex4 (n : ℕ) (h : n < 65536) :
    hexQuad (hexDig (n / 4096 % 16)) (hexDig (n / 256 % 16))
      (hexDig (n / 16 % 16)) (hexDig (n % 16)) = some n := by
  have hrec : n / 4096 % 16 * 4096 + n / 256 % 16 * 256 + n / 16 % 16 * 16 +
      n % 16 = n := by omega
  rw [hexQuad, hexVal_hexDig _ (by omega), hexVal_hexDig _ (by omega),
    hexVal_hexDig _ (by omega), hexVal_hexDig _ (by omega)]
  simp [hrec]

theorem decodeEscape_uquad (n : ℕ) (rest : List Char) (h1 : n < 65536)
    (h2 : n < 55296 ∨ 57343 < n) :
    decodeEscape ('u' :: (hex4 n ++ rest)) = some (Char.ofNat n, 5) := by
  simp only [hex4, List.cons_append, List.nil_append]
  rw [decodeEscape]
  simp [hexQuad_hex4 n h1]
  rw [if_neg (by omega), if_neg (by omega)]

end QueryEncoding

namespace QueryEncoding

theorem decodeEscape_usurrogates (n m : ℕ) (rest : List Char)
    (hn1 : 55296 ≤ n) (hn2 : n ≤ 56319) (hm1 : 56320 ≤ m) (hm2 : m ≤ 57343) :
    decodeEscape ('u' :: (hex4 n ++ ('\\' :: 'u' :: (hex4 m ++ rest)))) =
      some (Char.ofNat (65536 + (n - 55296) * 1024 + (m - 56320)), 11) := by
  simp only [hex4, List.cons_append, List.nil_append]
  rw [decodeEscape]
  simp [hexQuad_hex4 n (by omega), hexQuad_hex4 m (by omega)]
  rw [if_pos (by omega), if_pos (by omega)]

theorem parse_cons_plain (c : Char) (rest : List Char) (h1 : c ≠ '"')
    (h2 : c ≠ '\\') :
    parseStringBody (c :: rest) = (parseStringBody rest).map (c :: ·) := by
  rw [parseStringBody]
  rw [if_neg h1, if_neg h2]

theorem parse_cons_escape (rest : List Char) (ch : Char) (k : ℕ)
    (h : decodeEscape rest = some (ch, k)) :
    parseStringBody ('\\' :: rest) =
      (parseStringBody (rest.drop k)).map (ch :: ·) := by
  rw [parseStringBody]
  simp [h]

end QueryEncoding

namespace QueryEncoding

theorem parse_escapeChar (c : Char) (rest : List Char) :
    parseStringBody (escapeChar c ++ rest) =
      (parseStringBody rest).map (c :: ·) := by
  have hval : c.toNat < 55296 ∨ (57343 < c.toNat ∧ c.toNat < 1114112) :=
    c.valid
  rw [escapeChar]
  split_ifs with h1 h2 h3 h4 h5 h6 h7 h8 h9
  · subst h1
    rw [List.cons_append, List.cons_append, List.nil_append,
      parse_cons_escape ('\"' :: rest) '\"' 1 rfl]
    rfl
  · subst h2
    rw [List.cons_append, List.cons_append, List.nil_append,
      parse_cons_escape ('\\' :: rest) '\\' 1 rfl]
    rfl
  · have hc : Char.ofNat 8 = c := by rw [← h3, Char.ofNat_toNat]
    rw [List.cons_append, List.cons_append, List.nil_append,
      parse_cons_escape ('b' :: rest) (Char.ofNat 8) 1 rfl, hc]
    rfl
  · have hc : Char.ofNat 9 = c := by rw [← h4, Char.ofNat_toNat]
    rw [List.cons_append, List.cons_append, List.nil_append,
      parse_cons_escape ('t' :: rest) (Char.ofNat 9) 1 rfl, hc]
    rfl
  · have hc : Char.ofNat 10 = c := by rw [← h5, Char.ofNat_toNat]
    rw [List.cons_append, List.cons_append, List.nil_append,
      parse_cons_escape ('n' :: rest) (Char.ofNat 10) 1 rfl, hc]
    rfl
  · have hc : Char.ofNat 12 = c := by rw [← h6, Char.ofNat_toNat]
    rw [List.cons_append, List.cons_append, List.nil_append,
      parse_cons_escape ('f' :: rest) (Char.ofNat 12) 1 rfl, hc]
    rfl
  · have hc : Char.ofNat 13 = c := by rw [← h7, Char.ofNat_toNat]
    rw [List.cons_append, List.cons_append, List.nil_append,
      parse_cons_escape ('r' :: rest) (Char.ofNat 13) 1 rfl, hc]
    rfl
  · rw [List.cons_append, List.nil_append]
    exact parse_cons_plain c rest h1 h2
  · rw [List.cons_append, List.cons_append,
      parse_cons_escape ('u' :: (hex4 c.toNat ++ rest)) (Char.ofNat c.toNat)
        5 (decodeEscape_uquad c.toNat rest h9 (by omega))]
    have hdrop : ('u' :: (hex4 c.toNat ++ rest)).drop 5 = rest := by
      simp [hex4]
    rw [hdrop, Char.ofNat_toNat]
  · show parseStringBody
        ((('\\' :: 'u' :: hex4 (55296 + (c.toNat - 65536) / 1024)) ++
          ('\\' :: 'u' :: hex4 (56320 + (c.toNat - 65536) % 1024))) ++ rest) =
      (parseStringBody rest).map (c :: ·)
    rw [List.append_assoc]
    simp only [List.cons_append]
    rw [parse_cons_escape
      ('u' :: (hex4 (55296 + (c.toNat - 65536) / 1024) ++
        ('\\' :: 'u' :: (hex4 (56320 + (c.toNat - 65536) % 1024) ++ rest))))
      (Char.ofNat (65536 + (55296 + (c.toNat - 65536) / 1024 - 55296) * 1024 +
        (56320 + (c.toNat - 65536) % 1024 - 56320))) 11
      (decodeEscape_usurrogates (55296 + (c.toNat - 65536) / 1024)
        (56320 + (c.toNat - 65536) % 1024) rest (by omega) (by omega)
        (by omega) (by omega))]
    have hdrop : ('u' :: (hex4 (55296 + (c.toNat - 65536) / 1024) ++
        ('\\' :: 'u' :: (hex4 (56320 + (c.toNat - 65536) % 1024) ++
          rest)))).drop 11 = rest := by
      simp [hex4]
    have hchar : 65536 + (55296 + (c.toNat - 65536) / 1024 - 55296) * 1024 +
        (56320 + (c.toNat - 65536) % 1024 - 56320) = c.toNat := by omega
    rw [hdrop, hchar, Char.ofNat_toNat]

end QueryEncoding

namespace QueryEncoding

theorem parse_escapeList (l : List Char) :
    parseStringBody (escapeList l ++ ('"' :: rbrace :: [])) = some l := by
  induction l with
  | nil =>
    rw [escapeList, List.nil_append, parseStringBody]
    rfl
  | cons c l ih =>
    rw [escapeList, List.append_assoc, parse_escapeChar, ih]
    rfl

theorem hexDig_ascii : ∀ d < 16, (hexDig d).toNat < 128 := by decide

set_option maxHeartbeats 1000000 in
theorem escapeChar_ascii (c : Char) : ∀ x ∈ escapeChar c, x.toNat < 128 := by
  rw [escapeChar]
  split_ifs with h1 h2 h3 h4 h5 h6 h7 h8 h9 <;> intro x hx <;>
    simp only [hex4, List.cons_append, List.nil_append, List.mem_cons,
      List.mem_singleton, List.not_mem_nil, or_false] at hx
  · rcases hx with rfl | rfl <;> decide
  · rcases hx with rfl | rfl <;> decide
  · rcases hx with rfl | rfl <;> decide
  · rcases hx with rfl | rfl <;> decide
  · rcases hx with rfl | rfl <;> decide
  · rcases hx with rfl | rfl <;> decide
  · rcases hx with rfl | rfl <;> decide
  · subst hx
    omega
  · rcases hx with h | h | h | h | h | h <;> rw [h] <;>
      first
      | exact hexDig_ascii _ (by omega)
      | decide
  · rcases hx with h | h | h | h | h | h | h | h | h | h | h | h <;>
      rw [h] <;>
      first
      | exact hexDig_ascii _ (by omega)
      | decide

end QueryEncoding

namespace QueryEncoding

theorem escapeList_ascii (l : List Char) :
    ∀ x ∈ escapeList l, x.toNat < 128 := by
  induction l with
  | nil => intro x hx; simp [escapeList] at hx
  | cons c l ih =>
    intro x hx
    rw [escapeList] at hx
    rcases List.mem_append.mp hx with h | h
    · exact escapeChar_ascii c x h
    · exact ih x h

theorem json_dumps_query_ascii (q : String) :
    ∀ x ∈ (json_dumps_query q).data, x.toNat < 128 := by
  intro x hx
  rw [json_dumps_query] at hx
  rcases List.mem_append.mp hx with h | h
  · rcases List.mem_append.mp h with h2 | h2
    · fin_cases h2 <;> decide
    · exact escapeList_ascii q.data x h2
  · fin_cases h <;> decide

theorem utf8EncodeChar_ascii (c : Char) (h : c.toNat < 128) :
    String.utf8EncodeChar c = [UInt8.ofNat c.toNat] := by
  unfold String.utf8EncodeChar
  rw [if_pos]
  · rfl
  · change c.val.toBitVec.toNat ≤ 127
    exact Nat.le_of_lt_succ h

theorem asciiDecode_encode (l : List Char) (h : ∀ x ∈ l, x.toNat < 128) :
    asciiDecode (l.flatMap String.utf8EncodeChar) = some l := by
  induction l with
  | nil => rfl
  | cons c l ih =>
    have hc : c.toNat < 128 := h c (List.mem_cons_self c l)
    have hb : (UInt8.ofNat c.toNat).toNat = c.toNat := by
      change c.toNat % 256 = c.toNat
      omega
    rw [List.flatMap_cons, utf8EncodeChar_ascii c hc, List.cons_append,
      List.nil_append, asciiDecode]
    rw [if_pos (by rw [hb]; exact hc)]
    rw [hb, ih (fun x hx => h x (List.mem_cons_of_mem c hx)),
      Char.ofNat_toNat]
    rfl

end QueryEncoding

namespace QueryEncoding

theorem decodePayload_to_content (q : String) :
    decodePayload (to_content q) = some q := by
  rw [decodePayload, to_content,
    asciiDecode_encode _ (json_dumps_query_ascii q), Option.some_bind,
    parsePayload]
  have hdata : (json_dumps_query q).data =
      queryHeader ++ (escapeList q.data ++ ('"' :: rbrace :: [])) := by
    rw [json_dumps_query]
    simp [List.append_assoc]
  rw [hdata]
  have h11 : (11 : ℕ) = queryHeader.length := rfl
  rw [h11, List.take_left, List.drop_left, if_pos rfl, parse_escapeList]
  rfl

end QueryEncoding

/--
C10: `to_content` is a deterministic injective encoding of the query string:
decoding its output as UTF-8 and parsing it as JSON yields exactly the
one-key object `{"query": q}` (round trip), equal inputs produce
byte-identical outputs, and distinct inputs produce distinct outputs.
-/
theorem to_content_roundtrip (q q1 q2 : String) :
    QueryEncoding.decodePayload (QueryEncoding.to_content q) = some q ∧
    (QueryEncoding.to_content q1 = QueryEncoding.to_content q2 → q1 = q2) ∧
    (q1 = q2 →
      QueryEncoding.to_content q1 = QueryEncoding.to_content q2) := by
  refine ⟨QueryEncoding.decodePayload_to_content q, ?_, fun h => by rw [h]⟩
  intro h
  have hr1 := QueryEncoding.decodePayload_to_content q1
  rw [h, QueryEncoding.decodePayload_to_content q2] at hr1
  exact (Option.some.inj hr1).symm

/-- Witness for `to_content_roundtrip` at a concrete query string. -/
theorem to_content_roundtrip_witness :
    QueryEncoding.decodePayload (QueryEncoding.to_content "ab") = some "ab" ∧
    QueryEncoding.to_content "ab" = QueryEncoding.to_content "ab" :=
  ⟨(to_content_roundtrip "ab" "ab" "ab").1,
   (to_content_roundtrip "ab" "ab" "ab").2.2 rfl⟩
